import Mathlib

/-!
Verification development for the Resideo/Honeywell T10 direct-API client
(`resideo_direct_api.py`). The Python class `ResideoAPIController` is shallowly
embedded: its mutable fields `access_token`, `refresh_token`, `token_expires`
become an explicit `SessionTokens` state, network responses become explicit
oracle parameters, and Python exceptions that escape a method become the
`Except.error` side of an `Except` result. Timestamps (`datetime`) are modelled
as integers (seconds); the five-minute early-refresh margin is 300.
-/

namespace Resideo

/-- JSON values as delivered by the HTTP layer and stored in request bodies.
Objects are association lists of fields, mirroring parsed Python dicts. -/
inductive Json where
  | null
  | bool (b : Bool)
  | num (n : Int)
  | str (s : String)
  | arr (items : List Json)
  | obj (fields : List (String × Json))

/-- Python `d.get(key)` on a parsed JSON object: first matching field, else
`none` (also `none` when the scrutinee is not an object). -/
def jGet (j : Json) (key : String) : Option Json :=
  match j with
  | .obj fields => (fields.find? (fun p => p.1 == key)).map (fun p => p.2)
  | _ => none

/-- Python truthiness of a parsed JSON value (`bool(x)`): `None`, `False`, `0`,
`""`, `[]` and `\x7b\x7d` are falsy. -/
def jTruthy : Json → Bool
  | .null => false
  | .bool b => b
  | .num n => n != 0
  | .str s => s != ""
  | .arr items => !items.isEmpty
  | .obj fields => !fields.isEmpty

/-- Python `str()` on the scalar JSON values that reach f-strings in the code
(`locationID` values interpolated into endpoint paths). -/
def pyStr : Json → String
  | .null => "None"
  | .bool b => if b then "True" else "False"
  | .num n => toString n
  | .str s => s
  | .arr _ => "<list>"
  | .obj _ => "<dict>"

/-- Python `int(x)` on a JSON value: `none` models a raised
`TypeError`/`ValueError` (e.g. `int(None)`, `int("abc")`, `int([...])`).
String conversion is approximated by `String.toInt?`, which agrees with
Python on plain decimal strings and on non-numeric strings. -/
def pyInt : Json → Option Int
  | .num n => some n
  | .bool b => some (if b then 1 else 0)
  | .str s => s.toInt?
  | _ => none

/-- Python `str.lower()` (ASCII range, which covers the fan modes), as a
per-character map. -/
def pyLower (s : String) : String := ⟨s.data.map Char.toLower⟩

/-- Helper for `pyTitle`: `prevAlpha` records whether the previous character
was alphabetic (Python title-cases the first letter of each alphabetic run). -/
def pyTitleAux : List Char → Bool → List Char
  | [], _ => []
  | c :: cs, prevAlpha =>
    (if c.isAlpha then (if prevAlpha then c.toLower else c.toUpper) else c)
      :: pyTitleAux cs c.isAlpha

/-- Python `str.title()`: uppercase the first character of every alphabetic
run, lowercase the rest. -/
def pyTitle (s : String) : String := ⟨pyTitleAux s.data false⟩

/-- Dict update `d[k] = v` on an association list with unique keys (Python
dict semantics): replace the binding in place if present, else append. -/
def setKey : List (String × Json) → String → Json → List (String × Json)
  | [], k, v => [(k, v)]
  | (k', v') :: rest, k, v =>
    if k' = k then (k, v) :: rest else (k', v') :: setKey rest k v

/-- Dict lookup `d.get(k)` on an association list: first binding wins. -/
def lookupKey : List (String × Json) → String → Option Json
  | [], _ => none
  | (k', v) :: rest, k => if k' = k then some v else lookupKey rest k

/-- Python `x == s` where `s` is a string and `x` came out of `.get(...)`:
true exactly when `x` is that string (a non-string value never equals one). -/
def isStrEq : Option Json → String → Bool
  | some (.str s), t => s == t
  | _, _ => false

/-- The controller's mutable token triple (`self.access_token`,
`self.refresh_token`, `self.token_expires`); all `None` after `__init__`. -/
structure SessionTokens where
  access_token : Option String
  refresh_token : Option String
  token_expires : Option Int
deriving DecidableEq, Repr

/-- The record written by `save_tokens` / read by `load_tokens`
(`access_token`, `refresh_token`, `expires` as ISO string or null,
`client_id`). -/
structure TokenFile where
  access_token : Option String
  refresh_token : Option String
  expires : Option String
  client_id : Option String
deriving DecidableEq, Repr

/-- Parsed JSON object body of a 2xx token-endpoint response.
`refresh_token` distinguishes an absent key (`none`) from a key present with
value null or a string (`some ...`), because `refresh_access_token` tests key
presence with `in` while `exchange_code_for_token` uses `.get`.
`expires_in` is kept as a raw JSON value because the code applies `int()`. -/
structure TokenResponse where
  access_token : Option String
  refresh_token : Option (Option String)
  expires_in : Option Json

/-- The returned `token_data` payload rebuilt as JSON. -/
def TokenResponse.toJson (tr : TokenResponse) : Json :=
  .obj ((match tr.access_token with
         | some a => [("access_token", Json.str a)]
         | none => [])
     ++ (match tr.refresh_token with
         | some (some r) => [("refresh_token", Json.str r)]
         | some none => [("refresh_token", Json.null)]
         | none => [])
     ++ (match tr.expires_in with
         | some e => [("expires_in", e)]
         | none => []))

/-- Outcome of one POST to the OAuth token endpoint, as the code observes it:
`fail` is a transport fault or a non-2xx status (`raise_for_status`), both
raising `RequestException`; `okNonJson` is a 2xx whose body fails JSON
parsing — `response.json()` then raises `requests.exceptions.JSONDecodeError`,
a `RequestException` subclass (requests >= 2.27), carrying message `msg`;
`ok` is a 2xx with a JSON object body. -/
inductive TokenEndpointResp where
  | fail (msg : String)
  | okNonJson (msg : String)
  | ok (tr : TokenResponse)

/-- The uniform success/error dictionary shape every public operation
returns. -/
inductive ApiResult where
  | success (data : Json)
  | error (msg : String)

/-- Python `result.get('success', False)` truthiness on an `ApiResult`. -/
def isSuccess : ApiResult → Bool
  | .success _ => true
  | .error _ => false

/-- `exchange_code_for_token` (lines 54-94). Input state, token-endpoint
outcome and `datetime.now()`; output the post-call state and either the
returned dictionary (`Except.ok`) or an uncaught Python exception
(`Except.error`). Note the field assignments on lines 84-85 happen before
the `int()` on line 88, so an `int()` failure leaves a partially updated
state behind the raised exception. -/
def exchange_code_for_token (s : SessionTokens) (resp : TokenEndpointResp)
    (now : Int) : SessionTokens × Except String ApiResult :=
  match resp with
  | .fail msg =>
      (s, .ok (.error ("Failed to exchange code for token: " ++ msg)))
  | .okNonJson msg =>
      (s, .ok (.error ("Failed to exchange code for token: " ++ msg)))
  | .ok tr =>
      let s1 : SessionTokens :=
        { s with access_token := tr.access_token,
                 refresh_token := tr.refresh_token.join }
      match pyInt ((tr.expires_in).getD (.num 3600)) with
      | none => (s1, .error "int() failed on expires_in")
      | some ei =>
          ({ s1 with token_expires := some (now + ei) },
           .ok (.success tr.toJson))

/-- `refresh_access_token` (lines 96-137). Same conventions as
`exchange_code_for_token`; the guard is Python truthiness of
`self.refresh_token`, and the stored refresh token is replaced only when the
response object contains a `refresh_token` key. -/
def refresh_access_token (s : SessionTokens) (resp : TokenEndpointResp)
    (now : Int) : SessionTokens × Except String ApiResult :=
  if s.refresh_token.getD "" = "" then
    (s, .ok (.error "No refresh token available"))
  else
    match resp with
    | .fail msg => (s, .ok (.error ("Failed to refresh token: " ++ msg)))
    | .okNonJson msg => (s, .ok (.error ("Failed to refresh token: " ++ msg)))
    | .ok tr =>
        let s1 : SessionTokens := { s with access_token := tr.access_token }
        let s2 : SessionTokens :=
          match tr.refresh_token with
          | some v => { s1 with refresh_token := v }
          | none => s1
        match pyInt ((tr.expires_in).getD (.num 3600)) with
        | none => (s2, .error "int() failed on expires_in")
        | some ei =>
            ({ s2 with token_expires := some (now + ei) },
             .ok (.success (.obj [("message",
                                   .str "Token refreshed successfully")])))

/-- Python truthiness of the stored `access_token` / `refresh_token`
(`None` and the empty string are falsy). -/
def tokenIsTruthy : Option String → Bool
  | none => false
  | some s => s != ""

/-- The validity check performed inline by `_ensure_valid_token`
(lines 146-154): a truthy access token, and not
(`token_expires` set and `now >= token_expires - 5 minutes`). In particular
an unset `token_expires` leaves the conjunct's guard false, so the token
counts as valid. -/
def isValid (s : SessionTokens) (now : Int) : Bool :=
  tokenIsTruthy s.access_token &&
    !(match s.token_expires with
      | some exp => decide (exp - 300 ≤ now)
      | none => false)

/-- `_ensure_valid_token` (lines 139-154): `False` without a truthy access
token; a refresh attempt (whose token-endpoint outcome is the oracle
`refreshResp`) when the stored expiry is set and within the 5-minute margin,
returning `result.get('success', False)`; `True` otherwise. -/
def ensure_valid_token (s : SessionTokens) (now : Int)
    (refreshResp : TokenEndpointResp) : SessionTokens × Except String Bool :=
  if tokenIsTruthy s.access_token = false then (s, .ok false)
  else
    match s.token_expires with
    | some exp =>
        if decide (exp - 300 ≤ now) then
          match refresh_access_token s refreshResp now with
          | (s', .error e) => (s', .error e)
          | (s', .ok r) => (s', .ok (isSuccess r))
        else (s, .ok true)
    | none => (s, .ok true)

/-- `save_tokens` (lines 388-412): serializes the triple plus `client_id`;
`expires` is the printed timestamp when set, null otherwise. `ioOk = false`
models any I/O fault inside the `try`, caught and reported as `false` with no
file produced. The timestamp printer (`datetime.isoformat`) is the external
parameter `printIso`. -/
def save_tokens (printIso : Int → String) (s : SessionTokens)
    (client_id : String) (ioOk : Bool) : Option TokenFile × Bool :=
  if ioOk then
    (some { access_token := s.access_token,
            refresh_token := s.refresh_token,
            expires := s.token_expires.map printIso,
            client_id := some client_id }, true)
  else (none, false)

/-- `load_tokens` (lines 414-437): `file = none` models a missing file or
malformed JSON (the `open`/`json.load` lines raise, caught, `False`).
Otherwise `access_token` and `refresh_token` are assigned first (lines
428-429); then, only when `expires` is truthy (non-null, non-empty), the
timestamp is parsed — `parseIso` returning `none` models
`datetime.fromisoformat` raising, which is caught and yields `False`
after those first two assignments already happened. -/
def load_tokens (parseIso : String → Option Int) (s : SessionTokens)
    (file : Option TokenFile) : SessionTokens × Bool :=
  match file with
  | none => (s, false)
  | some d =>
      let s1 : SessionTokens :=
        { s with access_token := d.access_token,
                 refresh_token := d.refresh_token }
      match d.expires with
      | none => (s1, true)
      | some estr =>
          if estr = "" then (s1, true)
          else
            match parseIso estr with
            | none => (s1, false)
            | some t => ({ s1 with token_expires := some t }, true)

/-- The spec's TokenRecord invariant: a present access token implies a
present expiry. -/
def TokenInv (s : SessionTokens) : Prop :=
  s.access_token.isSome → s.token_expires.isSome

/-- Body of an HTTP response as the code distinguishes it: empty content
(`len(response.content) == 0`, `response.text == ""`, `response.json()`
raises), a body that parses as JSON, or non-empty text that fails JSON
parsing. -/
inductive RespBody where
  | empty
  | json (j : Json)
  | raw (text : String)

/-- An HTTP exchange that produced a response with a status code. -/
structure HttpResp where
  status : Nat
  body : RespBody

/-- Outcome of one `requests` call inside `_make_api_request`: either a
response object (any status) or a pure transport fault with no response
attached. -/
inductive HttpOutcome where
  | resp (r : HttpResp)
  | noResponse (msg : String)

/-- Response normalization of `_make_api_request` (lines 193-213):
`raise_for_status` raises `HTTPError` for status >= 400, handled by the
`except` block using the attached response (JSON error body if it parses,
else `HTTP <status>: <text>`); a non-raising status returns the empty-payload
success only for 200/201/202/204 with empty content, then tries JSON, then
falls back to `response_text` wrapping `response.text` (which is `""` for an
empty body). A pure transport fault yields `Request failed: <msg>`. -/
def handle_response (o : HttpOutcome) : ApiResult :=
  match o with
  | .noResponse msg => .error ("Request failed: " ++ msg)
  | .resp r =>
      if 400 ≤ r.status then
        match r.body with
        | .json j => .error ("API Error: " ++ pyStr j)
        | .raw t => .error ("HTTP " ++ toString r.status ++ ": " ++ t)
        | .empty => .error ("HTTP " ++ toString r.status ++ ": ")
      else
        if (r.status == 200 || r.status == 201 || r.status == 202 ||
            r.status == 204) &&
           (match r.body with | .empty => true | _ => false) then
          .success (.obj [])
        else
          match r.body with
          | .json j => .success j
          | .raw t => .success (.obj [("response_text", .str t)])
          | .empty => .success (.obj [("response_text", .str "")])

/-- `location.get('devices', [])` (line 241 / 330): the embedded device list
of one location object. -/
def locationDevices (loc : Json) : List Json :=
  match jGet loc "devices" with
  | some (.arr ds) => ds
  | _ => []

/-- Flattening loop of `get_all_devices` (lines 236-242) over the locations
payload, preserving location order then per-location device order. -/
def allDevicesOf : Json → List Json
  | .arr locs => locs.flatMap locationDevices
  | _ => []

/-- `get_all_devices` (lines 224-244), with the `get_locations` result as the
oracle `locResult`: a failed locations fetch is returned unchanged, otherwise
the flattened device list is wrapped in a success. -/
def get_all_devices (locResult : ApiResult) : ApiResult :=
  match locResult with
  | .error m => .error m
  | .success d => .success (.arr (allDevicesOf d))

/-- Thermostat filter of `get_thermostats` (lines 260-262): `deviceType` or
`deviceClass` equals `"Thermostat"`. -/
def isThermostat (d : Json) : Bool :=
  isStrEq (jGet d "deviceType") "Thermostat" ||
    isStrEq (jGet d "deviceClass") "Thermostat"

/-- `get_thermostats` (lines 246-264): on an upstream error the empty list,
otherwise the devices filtered to thermostats. -/
def get_thermostats (locResult : ApiResult) : List Json :=
  match get_all_devices locResult with
  | .error _ => []
  | .success (.arr devices) => devices.filter isThermostat
  | .success _ => []

/-- Auto-detection of `location_id` shared verbatim by `set_temperature`
(lines 316-320) and `set_fan_mode` (lines 378-382): a supplied id is used as
is; otherwise the `get_locations` result must be a success with truthy data,
and the first location's `locationID` is taken (`None` if that key is
absent, mirroring `.get`). -/
def resolveLocation (locResult : ApiResult) (location_id : Option Json) :
    Except String Json :=
  match location_id with
  | some lid => .ok lid
  | none =>
      match locResult with
      | .error _ => .error "Could not get location information"
      | .success d =>
          if jTruthy d = false then .error "Could not get location information"
          else
            match d with
            | .arr (l0 :: _) => .ok ((jGet l0 "locationID").getD .null)
            | _ => .ok .null

/-- `device.get('changeableValues', \x7b\x7d)` (line 341): the settings bag of
the found device. -/
def bagOf (dev : Json) : List (String × Json) :=
  match jGet dev "changeableValues" with
  | some (.obj fields) => fields
  | _ => []

/-- Settings-body construction of `set_temperature` (lines 341-353): copy the
bag, overwrite `mode`, overwrite each setpoint only when supplied, and
unconditionally set `thermostatSetpointStatus` to `"PermanentHold"`. -/
def buildSettings (cv : List (String × Json)) (mode : String)
    (heat_setpoint cool_setpoint : Option Json) : List (String × Json) :=
  let v1 := setKey cv "mode" (.str mode)
  let v2 := match heat_setpoint with
            | some h => setKey v1 "heatSetpoint" h
            | none => v1
  let v3 := match cool_setpoint with
            | some c => setKey v2 "coolSetpoint" c
            | none => v2
  setKey v3 "thermostatSetpointStatus" (.str "PermanentHold")

/-- Linear scan of `set_temperature` (lines 328-335): first device across all
locations whose `deviceID` equals `device_id`. -/
def findDevice (data : Json) (device_id : String) : Option Json :=
  match data with
  | .arr locs =>
      locs.findSome? (fun loc =>
        (locationDevices loc).find? (fun dev =>
          isStrEq (jGet dev "deviceID") device_id))
  | _ => none

/-- One request submitted to the API: endpoint path plus JSON body. -/
structure Posted where
  endpoint : String
  body : Json

/-- `set_temperature` (lines 300-359). Oracles: `locResult1` is the
`get_locations` result consumed only when `location_id` is omitted,
`locResult2` the second `get_locations` call used for the device scan, and
`postResult` the result of the final `set_thermostat_settings` POST. The
second component lists the requests actually submitted. -/
def set_temperature (locResult1 locResult2 postResult : ApiResult)
    (device_id mode : String) (heat_setpoint cool_setpoint : Option Json)
    (location_id : Option Json) : ApiResult × List Posted :=
  match resolveLocation locResult1 location_id with
  | .error m => (.error m, [])
  | .ok lid =>
      match locResult2 with
      | .error _ => (.error "Could not get current thermostat status", [])
      | .success d =>
          match findDevice d device_id with
          | none => (.error ("Thermostat " ++ device_id ++ " not found"), [])
          | some dev =>
              (postResult,
               [{ endpoint := "/devices/thermostats/" ++ device_id ++
                              "?locationId=" ++ pyStr lid,
                  body := .obj (buildSettings (bagOf dev) mode
                                  heat_setpoint cool_setpoint) }])

/-- `set_fan_mode` (lines 361-386): case-insensitive validation against
`auto`/`on`/`circulate` before any network use, then location resolution,
then a POST of the title-cased mode to the fan endpoint. -/
def set_fan_mode (locResult postResult : ApiResult)
    (device_id fan_mode : String) (location_id : Option Json) :
    ApiResult × List Posted :=
  if (["auto", "on", "circulate"].contains (pyLower fan_mode)) = false then
    (.error ("Invalid fan mode \x27" ++ fan_mode ++
             "\x27. Valid modes: [\x27auto\x27, \x27on\x27, \x27circulate\x27]"),
     [])
  else
    match resolveLocation locResult location_id with
    | .error m => (.error m, [])
    | .ok lid =>
        (postResult,
         [{ endpoint := "/devices/thermostats/" ++ device_id ++
                        "/fan?locationId=" ++ pyStr lid,
            body := .obj [("mode", .str (pyTitle fan_mode))] }])

/-! ## Helper lemmas -/

theorem lookupKey_setKey_self (l : List (String × Json)) (k : String) (v : Json) :
    lookupKey (setKey l k v) k = some v := by
  induction l with
  | nil => simp [setKey, lookupKey]
  | cons p rest ih =>
      obtain ⟨k0, v0⟩ := p
      by_cases hk : k0 = k
      · simp [setKey, hk, lookupKey]
      · simp [setKey, hk, lookupKey, ih]

theorem lookupKey_setKey_ne (l : List (String × Json)) (k : String) (v : Json)
    (k' : String) (h : k' ≠ k) :
    lookupKey (setKey l k v) k' = lookupKey l k' := by
  induction l with
  | nil => simp [setKey, lookupKey, Ne.symm h]
  | cons p rest ih =>
      obtain ⟨k0, v0⟩ := p
      by_cases hk : k0 = k
      · subst hk
        simp [setKey, lookupKey, Ne.symm h]
      · simp [setKey, hk, lookupKey, ih]

/-! ## Claim theorems -/

/-- C1 (amended): the inline validity check of `_ensure_valid_token` is false
whenever the access token is not truthy, and with a set expiry it is true iff
the access token is truthy and `now < expires_at - 5min`; but with a truthy
access token and an unset expiry the check is TRUE (a missing expiry is
treated as still-valid, not as expired), and `_ensure_valid_token` returns
`True` without attempting a refresh; whenever the check is true,
`_ensure_valid_token` succeeds as a no-op. -/
theorem c1_validity_check (s : SessionTokens) (now : Int)
    (r : TokenEndpointResp) :
    (tokenIsTruthy s.access_token = false →
      isValid s now = false ∧ ensure_valid_token s now r = (s, .ok false)) ∧
    (∀ exp, s.token_expires = some exp →
      (isValid s now = true ↔
        tokenIsTruthy s.access_token = true ∧ now < exp - 300)) ∧
    (s.token_expires = none → tokenIsTruthy s.access_token = true →
      isValid s now = true ∧ ensure_valid_token s now r = (s, .ok true)) ∧
    (isValid s now = true → ensure_valid_token s now r = (s, .ok true)) := by
  refine ⟨?_, ?_, ?_, ?_⟩
  · intro h
    simp [isValid, ensure_valid_token, h]
  · intro exp hexp
    simp only [isValid, hexp, Bool.and_eq_true, Bool.not_eq_true']
    constructor
    · rintro ⟨h1, h2⟩
      refine ⟨h1, ?_⟩
      have h2x := of_decide_eq_false h2
      omega
    · rintro ⟨h1, h2⟩
      exact ⟨h1, decide_eq_false (by omega)⟩
  · intro hnone htruthy
    simp [isValid, ensure_valid_token, hnone, htruthy]
  · intro hvalid
    simp only [isValid, Bool.and_eq_true, Bool.not_eq_true'] at hvalid
    obtain ⟨h1, h2⟩ := hvalid
    cases hte : s.token_expires with
    | none => simp [ensure_valid_token, h1, hte]
    | some exp =>
        rw [hte] at h2
        have h2x : decide (exp - 300 ≤ now) = false := h2
        have h2p := of_decide_eq_false h2x
        simp [ensure_valid_token, h1, hte]
        intro hcon
        omega

/-- C1 counterexample: with an access token set and `token_expires` unset,
the validity check is `true` (the claim asserts it is false), and
`_ensure_valid_token` succeeds without refreshing. -/
theorem c1_counterexample :
    isValid ⟨some "tok", none, none⟩ 0 = true ∧
    ensure_valid_token ⟨some "tok", none, none⟩ 0 (.fail "x") =
      (⟨some "tok", none, none⟩, .ok true) := ⟨rfl, rfl⟩

/-- C1 witness: a fresh token (expiry 1000, now 0) passes the check and
`_ensure_valid_token` is a successful no-op. -/
theorem c1_witness :
    ensure_valid_token ⟨some "tok", none, some 1000⟩ 0 (.fail "x") =
      (⟨some "tok", none, some 1000⟩, .ok true) :=
  (c1_validity_check ⟨some "tok", none, some 1000⟩ 0 (.fail "x")).2.2.2
    (by decide)

/-- C2 (amended): `load_tokens` returns false on a missing file or malformed
JSON leaving the in-memory state untouched; but on a well-formed file whose
non-empty `expires` string fails timestamp parsing it returns false having
already overwritten `access_token` and `refresh_token` with the file's values
(`token_expires` alone keeps its prior value). -/
theorem c2_load_tokens_faults (parseIso : String → Option Int)
    (s : SessionTokens) :
    load_tokens parseIso s none = (s, false) ∧
    (∀ d estr, d.expires = some estr → estr ≠ "" → parseIso estr = none →
      load_tokens parseIso s (some d) =
        ({ s with access_token := d.access_token,
                  refresh_token := d.refresh_token }, false)) := by
  refine ⟨rfl, ?_⟩
  intro d estr he hne hp
  simp [load_tokens, he, hne, hp]

/-- C2 counterexample: a file with an unparsable expiry makes `load_tokens`
return false while `access_token` and `refresh_token` have been replaced, so
the prior in-memory state is not left untouched. -/
theorem c2_counterexample :
    load_tokens (fun _ => none) ⟨some "old", some "oldr", some 99⟩
      (some ⟨some "new", some "newr", some "garbage", none⟩) =
      (⟨some "new", some "newr", some 99⟩, false) ∧
    (⟨some "new", some "newr", some 99⟩ : SessionTokens) ≠
      ⟨some "old", some "oldr", some 99⟩ := ⟨rfl, by decide⟩

/-- C2 witness: the amended fault behavior evaluated on the concrete
unparsable-expiry file. -/
theorem c2_witness :
    load_tokens (fun _ => none) ⟨some "o", some "or", some 7⟩
      (some ⟨some "n", some "nr", some "junk", none⟩) =
      (⟨some "n", some "nr", some 7⟩, false) :=
  (c2_load_tokens_faults (fun _ => none) ⟨some "o", some "or", some 7⟩).2
    ⟨some "n", some "nr", some "junk", none⟩ "junk" rfl (by decide) rfl

/-- C3 (amended): the invariant "access token present implies expiry present"
is preserved by `exchange_code_for_token` and by `refresh_access_token`
whenever they return normally (every successful path stores a fresh
`token_expires`, every caught failure leaves the state untouched); but
`load_tokens` does not preserve it: a file carrying an access token and no
expiry restores an access token while leaving `token_expires` unset. -/
theorem c3_invariant (s : SessionTokens) (resp : TokenEndpointResp)
    (now : Int) (hinv : TokenInv s) :
    (∀ a r, exchange_code_for_token s resp now = (a, .ok r) → TokenInv a) ∧
    (∀ a r, refresh_access_token s resp now = (a, .ok r) → TokenInv a) := by
  constructor
  · intro a r h
    cases resp with
    | fail m =>
        simp [exchange_code_for_token] at h
        rw [← h.1]
        exact hinv
    | okNonJson m =>
        simp [exchange_code_for_token] at h
        rw [← h.1]
        exact hinv
    | ok tr =>
        cases hpi : pyInt ((tr.expires_in).getD (.num 3600)) with
        | none => simp [exchange_code_for_token, hpi] at h
        | some ei =>
            simp [exchange_code_for_token, hpi] at h
            rw [← h.1]
            intro _
            rfl
  · intro a r h
    by_cases hg : s.refresh_token.getD "" = ""
    · simp [refresh_access_token, hg] at h
      rw [← h.1]
      exact hinv
    · cases resp with
      | fail m =>
          simp [refresh_access_token, hg] at h
          rw [← h.1]
          exact hinv
      | okNonJson m =>
          simp [refresh_access_token, hg] at h
          rw [← h.1]
          exact hinv
      | ok tr =>
          cases hpi : pyInt ((tr.expires_in).getD (.num 3600)) with
          | none => simp [refresh_access_token, hg, hpi] at h
          | some ei =>
              simp [refresh_access_token, hg, hpi] at h
              rw [← h.1]
              intro _
              rfl

/-- C3 counterexample: loading a file that has an access token but no expiry
into a fresh session succeeds and leaves a state with `access_token` set and
`token_expires` unset, violating the claimed invariant after `load_tokens`. -/
theorem c3_counterexample :
    load_tokens (fun _ => none) ⟨none, none, none⟩
      (some ⟨some "a", none, none, none⟩) = (⟨some "a", none, none⟩, true) ∧
    ¬ TokenInv ⟨some "a", none, none⟩ := by
  refine ⟨rfl, fun h => ?_⟩
  have hx := h (by decide)
  simp at hx

/-- C3 witness: a successful concrete token exchange lands in a state
satisfying the invariant. -/
theorem c3_witness : TokenInv ⟨some "na", some "nr", some 77⟩ :=
  (c3_invariant ⟨some "a", some "r", some 50⟩
      (.ok ⟨some "na", some (some "nr"), some (.num 27)⟩) 50
      (fun _ => rfl)).1
    ⟨some "na", some "nr", some 77⟩
    (.success (TokenResponse.toJson ⟨some "na", some (some "nr"),
                                     some (.num 27)⟩))
    rfl

/-- C4 (confirmed): `save_tokens` followed by `load_tokens` — into the same
session or into a fresh one — returns true and restores exactly the same
`access_token`, `refresh_token` and `token_expires`, given that the external
timestamp printer/parser pair round-trips losslessly (as
`datetime.isoformat`/`fromisoformat` do) and prints non-empty strings; an
absent expiry is saved as null and restored as absent. -/
theorem c4_round_trip (s : SessionTokens) (cid : String)
    (printIso : Int → String) (parseIso : String → Option Int)
    (hrt : ∀ t, s.token_expires = some t →
      printIso t ≠ "" ∧ parseIso (printIso t) = some t) :
    (save_tokens printIso s cid true).2 = true ∧
    load_tokens parseIso s (save_tokens printIso s cid true).1 = (s, true) ∧
    load_tokens parseIso ⟨none, none, none⟩
      (save_tokens printIso s cid true).1 = (s, true) := by
  obtain ⟨a, r, e⟩ := s
  cases e with
  | none => exact ⟨rfl, rfl, rfl⟩
  | some t =>
      obtain ⟨hne, hp⟩ := hrt t rfl
      refine ⟨rfl, ?_, ?_⟩ <;> simp [save_tokens, load_tokens, hne, hp]

/-- C4 witness: the round trip evaluated on a concrete record with a concrete
lossless printer/parser pair. -/
theorem c4_witness :
    load_tokens (fun s => if s = "ts5" then some 5 else none)
      ⟨some "A", some "R", some 5⟩
      (save_tokens (fun _ => "ts5") ⟨some "A", some "R", some 5⟩
        "cid" true).1 = (⟨some "A", some "R", some 5⟩, true) :=
  (c4_round_trip ⟨some "A", some "R", some 5⟩ "cid" (fun _ => "ts5")
      (fun s => if s = "ts5" then some 5 else none)
      (fun t ht => by
        injection ht with h
        subst h
        exact ⟨by decide, by decide⟩)).2.1

/-- C5 (amended): the token operations return the ApiResult shape without
raising across the public boundary — a transport fault, a non-2xx status and
a non-JSON 2xx token-endpoint body are all caught (the HTTP library's JSON
decode failure is a `RequestException` subclass) and reported as an Error
result, and a persistence I/O fault is reported as boolean false — with one
exception the claim omits: a 2xx token-endpoint JSON body whose `expires_in`
is not integer-convertible makes `int()` raise after the token fields were
already assigned, and that exception escapes uncaught. -/
theorem c5_no_uncaught_exceptions (s : SessionTokens)
    (resp : TokenEndpointResp) (now : Int) :
    (∀ e, (exchange_code_for_token s resp now).2 = .error e →
      ∃ tr, resp = .ok tr ∧ pyInt ((tr.expires_in).getD (.num 3600)) = none) ∧
    (∀ e, (refresh_access_token s resp now).2 = .error e →
      ∃ tr, resp = .ok tr ∧ pyInt ((tr.expires_in).getD (.num 3600)) = none) ∧
    (∀ msg, exchange_code_for_token s (.okNonJson msg) now =
      (s, .ok (.error ("Failed to exchange code for token: " ++ msg)))) ∧
    (∀ printIso cid, save_tokens printIso s cid false = (none, false)) := by
  refine ⟨?_, ?_, fun msg => rfl, fun printIso cid => rfl⟩
  · intro e he
    cases resp with
    | fail m => simp [exchange_code_for_token] at he
    | okNonJson m => simp [exchange_code_for_token] at he
    | ok tr =>
        cases hpi : pyInt ((tr.expires_in).getD (.num 3600)) with
        | none => exact ⟨tr, rfl, hpi⟩
        | some ei => simp [exchange_code_for_token, hpi] at he
  · intro e he
    by_cases hg : s.refresh_token.getD "" = ""
    · simp [refresh_access_token, hg] at he
    · cases resp with
      | fail m => simp [refresh_access_token, hg] at he
      | okNonJson m => simp [refresh_access_token, hg] at he
      | ok tr =>
          cases hpi : pyInt ((tr.expires_in).getD (.num 3600)) with
          | none => exact ⟨tr, rfl, hpi⟩
          | some ei => simp [refresh_access_token, hg, hpi] at he

/-- C5 counterexample: a 2xx token-endpoint response whose `expires_in` is
JSON null makes `exchange_code_for_token` raise (`int(None)`), with
`access_token` already overwritten — an exception does cross the public
boundary, against the claim's universal statement. -/
theorem c5_counterexample :
    exchange_code_for_token ⟨none, none, none⟩
      (.ok ⟨some "t", none, some .null⟩) 0 =
      (⟨some "t", none, none⟩, .error "int() failed on expires_in") := rfl

/-- C5 witness: a non-JSON 2xx token response and an I/O fault both surface
as results, not exceptions, at concrete inputs. -/
theorem c5_witness :
    exchange_code_for_token ⟨none, none, none⟩ (.okNonJson "bad body") 0 =
      (⟨none, none, none⟩,
       .ok (.error "Failed to exchange code for token: bad body")) ∧
    save_tokens (fun t => toString t) ⟨none, none, none⟩ "cid" false =
      (none, false) :=
  ⟨(c5_no_uncaught_exceptions ⟨none, none, none⟩ (.fail "z") 0).2.2.1
     "bad body",
   (c5_no_uncaught_exceptions ⟨none, none, none⟩ (.fail "z") 0).2.2.2
     (fun t => toString t) "cid"⟩

/-- C6 (confirmed): the settings body `set_temperature` submits is built from
a copy of the found device's `changeableValues` bag: `mode` is overwritten,
each setpoint is overwritten exactly when the corresponding argument was
supplied (an omitted argument preserves the bag's existing value), every
other key keeps its existing value, and `thermostatSetpointStatus` is
unconditionally `"PermanentHold"`; and the request actually posted carries
exactly this body for the found device's bag. -/
theorem c6_set_temperature_body (cv : List (String × Json)) (mode : String)
    (hs cs : Option Json) :
    lookupKey (buildSettings cv mode hs cs) "mode" = some (.str mode) ∧
    lookupKey (buildSettings cv mode hs cs) "thermostatSetpointStatus" =
      some (.str "PermanentHold") ∧
    (hs = none → lookupKey (buildSettings cv mode hs cs) "heatSetpoint" =
      lookupKey cv "heatSetpoint") ∧
    (∀ v, hs = some v →
      lookupKey (buildSettings cv mode hs cs) "heatSetpoint" = some v) ∧
    (cs = none → lookupKey (buildSettings cv mode hs cs) "coolSetpoint" =
      lookupKey cv "coolSetpoint") ∧
    (∀ v, cs = some v →
      lookupKey (buildSettings cv mode hs cs) "coolSetpoint" = some v) ∧
    (∀ k, k ≠ "mode" → k ≠ "heatSetpoint" → k ≠ "coolSetpoint" →
      k ≠ "thermostatSetpointStatus" →
      lookupKey (buildSettings cv mode hs cs) k = lookupKey cv k) ∧
    (∀ postResult lid,
      set_temperature (.success .null)
        (.success (.arr [.obj [("devices",
          .arr [.obj [("deviceID", .str "D1"),
                      ("changeableValues", .obj cv)]])]]))
        postResult "D1" mode hs cs (some lid) =
        (postResult,
         [{ endpoint := "/devices/thermostats/D1?locationId=" ++ pyStr lid,
            body := .obj (buildSettings cv mode hs cs) }])) := by
  refine ⟨?_, ?_, ?_, ?_, ?_, ?_, ?_, fun postResult lid => rfl⟩
  · cases hs with
    | none =>
        cases cs with
        | none =>
            simp [buildSettings, lookupKey_setKey_self,
                  lookupKey_setKey_ne _ _ _ _ (by decide : "mode" ≠
                    "thermostatSetpointStatus")]
        | some c =>
            simp [buildSettings, lookupKey_setKey_self,
                  lookupKey_setKey_ne _ _ _ _ (by decide : "mode" ≠
                    "thermostatSetpointStatus"),
                  lookupKey_setKey_ne _ _ _ _ (by decide : "mode" ≠
                    "coolSetpoint")]
    | some h =>
        cases cs with
        | none =>
            simp [buildSettings, lookupKey_setKey_self,
                  lookupKey_setKey_ne _ _ _ _ (by decide : "mode" ≠
                    "thermostatSetpointStatus"),
                  lookupKey_setKey_ne _ _ _ _ (by decide : "mode" ≠
                    "heatSetpoint")]
        | some c =>
            simp [buildSettings, lookupKey_setKey_self,
                  lookupKey_setKey_ne _ _ _ _ (by decide : "mode" ≠
                    "thermostatSetpointStatus"),
                  lookupKey_setKey_ne _ _ _ _ (by decide : "mode" ≠
                    "coolSetpoint"),
                  lookupKey_setKey_ne _ _ _ _ (by decide : "mode" ≠
                    "heatSetpoint")]
  · cases hs <;> cases cs <;> simp [buildSettings, lookupKey_setKey_self]
  · intro hhs
    subst hhs
    cases cs with
    | none =>
        simp [buildSettings,
              lookupKey_setKey_ne _ _ _ _ (by decide : "heatSetpoint" ≠
                "thermostatSetpointStatus"),
              lookupKey_setKey_ne _ _ _ _ (by decide : "heatSetpoint" ≠
                "mode")]
    | some c =>
        simp [buildSettings,
              lookupKey_setKey_ne _ _ _ _ (by decide : "heatSetpoint" ≠
                "thermostatSetpointStatus"),
              lookupKey_setKey_ne _ _ _ _ (by decide : "heatSetpoint" ≠
                "coolSetpoint"),
              lookupKey_setKey_ne _ _ _ _ (by decide : "heatSetpoint" ≠
                "mode")]
  · intro v hhs
    subst hhs
    cases cs with
    | none =>
        simp [buildSettings, lookupKey_setKey_self,
              lookupKey_setKey_ne _ _ _ _ (by decide : "heatSetpoint" ≠
                "thermostatSetpointStatus")]
    | some c =>
        simp [buildSettings, lookupKey_setKey_self,
              lookupKey_setKey_ne _ _ _ _ (by decide : "heatSetpoint" ≠
                "thermostatSetpointStatus"),
              lookupKey_setKey_ne _ _ _ _ (by decide : "heatSetpoint" ≠
                "coolSetpoint")]
  · intro hcs
    subst hcs
    cases hs with
    | none =>
        simp [buildSettings,
              lookupKey_setKey_ne _ _ _ _ (by decide : "coolSetpoint" ≠
                "thermostatSetpointStatus"),
              lookupKey_setKey_ne _ _ _ _ (by decide : "coolSetpoint" ≠
                "mode")]
    | some h =>
        simp [buildSettings,
              lookupKey_setKey_ne _ _ _ _ (by decide : "coolSetpoint" ≠
                "thermostatSetpointStatus"),
              lookupKey_setKey_ne _ _ _ _ (by decide : "coolSetpoint" ≠
                "heatSetpoint"),
              lookupKey_setKey_ne _ _ _ _ (by decide : "coolSetpoint" ≠
                "mode")]
  · intro v hcs
    subst hcs
    cases hs <;>
      simp [buildSettings, lookupKey_setKey_self,
            lookupKey_setKey_ne _ _ _ _ (by decide : "coolSetpoint" ≠
              "thermostatSetpointStatus")]
  · intro k hk1 hk2 hk3 hk4
    cases hs <;> cases cs <;>
      simp [buildSettings, lookupKey_setKey_ne _ _ _ _ hk1,
            lookupKey_setKey_ne _ _ _ _ hk2, lookupKey_setKey_ne _ _ _ _ hk3,
            lookupKey_setKey_ne _ _ _ _ hk4]

/-- C6 witness: the concrete scenario — a bag with `mode` and `heatSetpoint`,
a call supplying only `mode` and `coolSetpoint=72` — leaves the existing
heat setpoint untouched, overwrites the cool setpoint and the mode. -/
theorem c6_witness :
    lookupKey (buildSettings [("mode", Json.str "Off"),
        ("heatSetpoint", Json.num 60)] "Heat" none (some (.num 72)))
      "heatSetpoint" = some (.num 60) ∧
    lookupKey (buildSettings [("mode", Json.str "Off"),
        ("heatSetpoint", Json.num 60)] "Heat" none (some (.num 72)))
      "coolSetpoint" = some (.num 72) ∧
    lookupKey (buildSettings [("mode", Json.str "Off"),
        ("heatSetpoint", Json.num 60)] "Heat" none (some (.num 72)))
      "mode" = some (.str "Heat") :=
  ⟨(c6_set_temperature_body [("mode", Json.str "Off"),
      ("heatSetpoint", Json.num 60)] "Heat" none (some (.num 72))).2.2.1 rfl,
   (c6_set_temperature_body [("mode", Json.str "Off"),
      ("heatSetpoint", Json.num 60)] "Heat" none
      (some (.num 72))).2.2.2.2.2.1 (.num 72) rfl,
   (c6_set_temperature_body [("mode", Json.str "Off"),
      ("heatSetpoint", Json.num 60)] "Heat" none (some (.num 72))).1⟩

/-- C7 (confirmed): on any failure of the underlying locations fetch,
`get_thermostats` degrades to the empty list while `get_all_devices` returns
the upstream error unchanged and `set_temperature`/`set_fan_mode` return an
Error result (and submit nothing). -/
theorem c7_error_propagation (m : String) (pr : ApiResult)
    (did fm mode : String) (hs cs : Option Json) :
    get_thermostats (.error m) = [] ∧
    get_all_devices (.error m) = .error m ∧
    set_temperature (.error m) pr pr did mode hs cs none =
      (.error "Could not get location information", []) ∧
    (∀ d post, set_temperature d (.error m) post did mode hs cs
      (some (.num 1)) =
      (.error "Could not get current thermostat status", [])) ∧
    ((["auto", "on", "circulate"].contains (pyLower fm)) = true →
      set_fan_mode (.error m) pr did fm none =
        (.error "Could not get location information", [])) := by
  refine ⟨rfl, rfl, rfl, fun d post => rfl, fun h => ?_⟩
  unfold set_fan_mode
  rw [if_neg (by rw [h]; decide)]
  rfl

/-- C7 witness: the degradations evaluated at a concrete upstream error. -/
theorem c7_witness :
    set_fan_mode (.error "boom") (.success .null) "D" "on" none =
      (.error "Could not get location information", []) :=
  (c7_error_propagation "boom" (.success .null) "D" "on" "Heat"
      none none).2.2.2.2 (by decide)

/-- C8 (amended): any response the status check lets through with a 2xx
status yields a Success, never an Error: a non-empty non-JSON body (and an
empty body on a 2xx status other than 200/201/202/204, where the empty
`response.text` takes the same route) is wrapped under the `response_text`
fallback field; the empty-payload Success is produced exactly for an empty
body with status 200, 201, 202 or 204 — not for every 2xx status as the
claim states. -/
theorem c8_success_handling (st : Nat) (body : RespBody)
    (h2 : 200 ≤ st) (h3 : st ≤ 299) :
    isSuccess (handle_response (.resp ⟨st, body⟩)) = true ∧
    (body = .empty → (st = 200 ∨ st = 201 ∨ st = 202 ∨ st = 204) →
      handle_response (.resp ⟨st, body⟩) = .success (.obj [])) ∧
    (body = .empty → ¬(st = 200 ∨ st = 201 ∨ st = 202 ∨ st = 204) →
      handle_response (.resp ⟨st, body⟩) =
        .success (.obj [("response_text", .str "")])) ∧
    (∀ t, body = .raw t → handle_response (.resp ⟨st, body⟩) =
      .success (.obj [("response_text", .str t)])) ∧
    (∀ j, body = .json j → handle_response (.resp ⟨st, body⟩) =
      .success j) := by
  have hlt : ¬(400 ≤ st) := by omega
  refine ⟨?_, ?_, ?_, ?_, ?_⟩
  · cases body <;>
      (simp only [handle_response]; rw [if_neg hlt]; split <;> rfl)
  · intro hb hst
    subst hb
    rcases hst with h | h | h | h <;> subst h <;> rfl
  · intro hb hst
    subst hb
    have hc : (st == 200 || st == 201 || st == 202 || st == 204) = false := by
      simp only [Bool.or_eq_false_iff, beq_eq_false_iff_ne, ne_eq]
      push_neg at hst
      exact ⟨⟨⟨hst.1, hst.2.1⟩, hst.2.2.1⟩, hst.2.2.2⟩
    simp [handle_response, hlt, hc]
  · intro t hb
    subst hb
    simp [handle_response, hlt]
  · intro j hb
    subst hb
    simp [handle_response, hlt]

/-- C8 counterexample: status 203 with an empty body — an HTTP-level success
— is not given the empty payload the claim requires for every 2xx; it takes
the `response_text` fallback instead. -/
theorem c8_counterexample :
    handle_response (.resp ⟨203, .empty⟩) =
      .success (.obj [("response_text", .str "")]) ∧
    handle_response (.resp ⟨203, .empty⟩) ≠ .success (.obj []) := by
  constructor
  · rfl
  · intro h
    rw [show handle_response (.resp ⟨203, .empty⟩) =
        .success (.obj [("response_text", Json.str "")]) from rfl] at h
    injection h with h1
    injection h1 with h2
    exact List.cons_ne_nil _ _ h2

/-- C8 witness: an empty 204 body gives the empty payload and a non-JSON 200
body gives the raw-text fallback, both as Success. -/
theorem c8_witness :
    handle_response (.resp ⟨204, .empty⟩) = .success (.obj []) ∧
    handle_response (.resp ⟨200, .raw "OK!"⟩) =
      .success (.obj [("response_text", .str "OK!")]) :=
  ⟨(c8_success_handling 204 .empty (by decide) (by decide)).2.1 rfl
     (by decide),
   (c8_success_handling 200 (.raw "OK!") (by decide) (by decide)).2.2.2.1
     "OK!" rfl⟩

/-- C9 (confirmed): `set_fan_mode` rejects any mode whose lower-cased form is
not `auto`/`on`/`circulate` with an error listing the valid values and
submits nothing (the result does not depend on any network oracle); for a
valid mode with a resolved location it posts exactly
`\x7b mode: <title-cased mode> \x7d` to the device's fan endpoint. -/
theorem c9_fan_mode (lr pr : ApiResult) (did fm : String)
    (lid : Option Json) :
    ((["auto", "on", "circulate"].contains (pyLower fm)) = false →
      set_fan_mode lr pr did fm lid =
        (.error ("Invalid fan mode \x27" ++ fm ++
          "\x27. Valid modes: [\x27auto\x27, \x27on\x27, \x27circulate\x27]"),
         [])) ∧
    ((["auto", "on", "circulate"].contains (pyLower fm)) = true →
      ∀ l, lid = some l →
        set_fan_mode lr pr did fm lid =
          (pr, [{ endpoint := "/devices/thermostats/" ++ did ++
                              "/fan?locationId=" ++ pyStr l,
                  body := .obj [("mode", .str (pyTitle fm))] }])) := by
  constructor
  · intro h
    unfold set_fan_mode
    rw [if_pos h]
  · intro h l hl
    subst hl
    unfold set_fan_mode
    rw [if_neg (by rw [h]; decide)]
    rfl

/-- C9 witness: `"SPIN"` is rejected with the valid-values message and no
submission; `"auto"` posts `\x7b mode: "Auto" \x7d` to the fan endpoint. -/
theorem c9_witness :
    set_fan_mode (.success .null) (.success (.obj [])) "D" "SPIN" none =
      (.error ("Invalid fan mode \x27SPIN\x27. " ++
        "Valid modes: [\x27auto\x27, \x27on\x27, \x27circulate\x27]"), []) ∧
    set_fan_mode (.success .null) (.success (.obj [])) "D" "auto"
      (some (.num 7)) =
      (.success (.obj []),
       [{ endpoint := "/devices/thermostats/D/fan?locationId=7",
          body := .obj [("mode", .str "Auto")] }]) :=
  ⟨(c9_fan_mode (.success .null) (.success (.obj [])) "D" "SPIN" none).1
     (by decide),
   (c9_fan_mode (.success .null) (.success (.obj [])) "D" "auto"
      (some (.num 7))).2 (by decide) (.num 7) rfl⟩

/-- C10 (confirmed): whenever `exchange_code_for_token` or
`refresh_access_token` returns the Error variant, the stored token triple is
exactly what it was before the call — every Error return happens strictly
before any field assignment. -/
theorem c10_error_atomicity (s : SessionTokens) (resp : TokenEndpointResp)
    (now : Int) (s' : SessionTokens) (m : String) :
    (exchange_code_for_token s resp now = (s', .ok (.error m)) → s' = s) ∧
    (refresh_access_token s resp now = (s', .ok (.error m)) → s' = s) := by
  constructor
  · intro h
    cases resp with
    | fail msg => simp [exchange_code_for_token] at h; exact h.1.symm
    | okNonJson msg => simp [exchange_code_for_token] at h; exact h.1.symm
    | ok tr =>
        cases hpi : pyInt ((tr.expires_in).getD (.num 3600)) with
        | none => simp [exchange_code_for_token, hpi] at h
        | some ei => simp [exchange_code_for_token, hpi] at h
  · intro h
    by_cases hg : s.refresh_token.getD "" = ""
    · simp [refresh_access_token, hg] at h
      exact h.1.symm
    · cases resp with
      | fail msg => simp [refresh_access_token, hg] at h; exact h.1.symm
      | okNonJson msg => simp [refresh_access_token, hg] at h; exact h.1.symm
      | ok tr =>
          cases hpi : pyInt ((tr.expires_in).getD (.num 3600)) with
          | none => simp [refresh_access_token, hg, hpi] at h
          | some ei => simp [refresh_access_token, hg, hpi] at h

/-- C10 witness: a concrete transport failure during exchange leaves the
concrete stored triple unchanged. -/
theorem c10_witness :
    (exchange_code_for_token ⟨some "a", some "r", some 10⟩ (.fail "conn")
       0).1 = ⟨some "a", some "r", some 10⟩ :=
  (c10_error_atomicity ⟨some "a", some "r", some 10⟩ (.fail "conn") 0
      ⟨some "a", some "r", some 10⟩
      "Failed to exchange code for token: conn").1 rfl

end Resideo
